import Mathlib

/-!
Verification of the cache-and-refresh core of the challonge places monitor
(`src/index.js`) against its natural-language specification.

The JavaScript source is shallowly embedded:
* raw API records become Lean structures (optional-chained JS accesses
  such as `match.attributes?.state` are flattened to `Option` fields;
  `suggestedPlayOrder` is numeric per the data model, so it is `Int`);
* the module-level mutable objects `matchesCache` / `cacheTimestamps`
  become an explicit `CacheState` threaded through the operations;
* `Date.now()` values become explicit `Nat` parameters;
* the pair of upstream HTTP GETs in `updateMatches` becomes a fetch
  oracle `Nat → String → Option FetchPayload` (`none` models any failed
  fetch, which the source catches at its `try`/`catch` boundary);
* the `try`/`catch` in `updateMatches` means no exception escapes: in the
  embedding every operation is a total function;
* `Array.prototype.sort` with a numeric comparator is modelled by
  `List.insertionSort` over the comparator's `≤` relation (the claims
  only constrain sortedness of the output, which any sorted permutation
  satisfies);
* the instrumentation counter returned by `getMatchesData` (third
  component) counts invocations of `updateMatches`, i.e. upstream fetch
  operations, used to state the spec's fetch-count properties.
-/

/-- A raw match record from `matchesRes.data.data` (src/index.js:73-83).
`stationRef`/`player1Ref`/`player2Ref` model
`match.relationships?.station?.data?.id` etc.; `state`, `underwayAt`,
`startedAt` model the optional-chained attribute accesses. -/
structure RawMatch where
  id : String
  stationRef : Option String
  player1Ref : Option String
  player2Ref : Option String
  underwayAt : Option String
  startedAt : Option String
  state : Option String
  suggestedPlayOrder : Int
deriving DecidableEq, Repr

/-- An entry of `matchesRes.data.included` (src/index.js:57-63). -/
structure IncludedItem where
  type : String
  id : String
  name : Option String
deriving DecidableEq, Repr

/-- An entry of `stationsRes.data.data` (src/index.js:66-68). -/
structure StationRec where
  id : String
  name : Option String
deriving DecidableEq, Repr

/-- The derived per-match view object `matchData` (src/index.js:74-83). -/
structure MatchView where
  id : String
  station : String
  player1 : String
  player2 : String
  underwayAt : Option String
  startedAt : Option String
  state : Option String
  suggestedPlayOrder : Int
deriving DecidableEq, Repr

/-- The normalized view model `{ active, pending }` (src/index.js:71). -/
structure Snapshot where
  active : List MatchView
  pending : List MatchView
deriving DecidableEq, Repr

/-- The payload of one successful round of the two upstream GETs in
`updateMatches` (src/index.js:49-54). -/
structure FetchPayload where
  included : List IncludedItem
  stationRecs : List StationRec
  matchRecs : List RawMatch
deriving DecidableEq, Repr

/-- Configuration loaded from the environment at process start:
`process.env.TOURNAMENT_ID` and `CACHE_INTERVAL` (src/index.js:43,47). -/
structure Config where
  TOURNAMENT_ID : String
  CACHE_INTERVAL : Nat
deriving DecidableEq, Repr

/-- The module-level mutable maps `matchesCache` and `cacheTimestamps`
(src/index.js:41-42), modelled as functions from JS property keys. -/
structure CacheState where
  matchesCache : String → Option Snapshot
  cacheTimestamps : String → Option Nat

/-! ### Fetcher/Normalizer -/

/-- First maximal run of decimal digits in a character list, modelling the
regex search `stationName?.match(/\d+/)` (src/index.js:36). -/
def firstDigitRun : List Char → Option (List Char)
  | [] => none
  | c :: cs =>
      if c.isDigit then some (c :: cs.takeWhile (·.isDigit)) else firstDigitRun cs

/-- Decimal value of a digit run, modelling `parseInt(match[0])`
(src/index.js:37). -/
def digitsToNat (cs : List Char) : Nat :=
  cs.foldl (fun n c => n * 10 + (c.toNat - 48)) 0

/-- The function `getTableNumber` (src/index.js:35-38). `none` models the `Infinity`
returned when the station name contains no digit. -/
def getTableNumber (stationName : String) : Option Nat :=
  (firstDigitRun stationName.data).map digitsToNat

/-- The invitation-pending marker stripped from participant names
(src/index.js:60). -/
def pendingMarker : String := " (invitation pending)"

/-- Remove the first occurrence of `pat` from a character list, modelling
JS `String.prototype.replace` with a string pattern and empty
replacement (src/index.js:60). -/
def stripFirst (pat : List Char) : List Char → List Char
  | [] => []
  | c :: cs =>
      if pat.isPrefixOf (c :: cs) then (c :: cs).drop pat.length
      else c :: stripFirst pat cs

/-- Models `name.replace(" (invitation pending)", "")` (src/index.js:60). -/
def stripMarker (s : String) : String :=
  ⟨stripFirst pendingMarker.data s.data⟩

/-- The value stored in the participant lookup for one included entity:
`item.attributes?.name?.replace(" (invitation pending)", "") ||
  \x7bSpieler $\x7bitem.id\x7d\x7d` (src/index.js:59-61). A missing name, or a
name that strips to the empty string (falsy in JS), falls back to the
synthesized label. -/
def participantLabel (id : String) (name : Option String) : String :=
  match name with
  | none => "Spieler " ++ id
  | some n =>
      let r := stripMarker n
      if r = "" then "Spieler " ++ id else r

/-- One iteration of the forEach over `matchesRes.data.included`
(src/index.js:57-63): assign `participants[item.id]` when the item is a
participant, leave the object unchanged otherwise. -/
def participantStep (acc : String → Option String) (item : IncludedItem) :
    String → Option String :=
  if item.type = "participant" then
    fun k => if k = item.id then some (participantLabel item.id item.name) else acc k
  else acc

/-- The `participants` lookup object built by the forEach over
`matchesRes.data.included` (src/index.js:56-63); later entries with the
same id overwrite earlier ones, as JS property assignment does. -/
def buildParticipants (included : List IncludedItem) : String → Option String :=
  included.foldl participantStep (fun _ => none)

/-- The value stored in the station lookup:
`station.attributes?.name || \x7bTisch $\x7bstation.id\x7d\x7d`
(src/index.js:67). -/
def stationLabel (id : String) (name : Option String) : String :=
  match name with
  | none => "Tisch " ++ id
  | some n => if n = "" then "Tisch " ++ id else n

/-- The `stations` lookup object (src/index.js:65-68). -/
def buildStations (recs : List StationRec) : String → Option String :=
  recs.foldl
    (fun acc s => fun k => if k = s.id then some (stationLabel s.id s.name) else acc k)
    (fun _ => none)

/-- JS lookup-with-fallback `table[ref] || fallback` where `ref` may be
undefined (src/index.js:76-78): a missing or unknown reference, or a
falsy (empty) stored value, yields the fallback. -/
def lookupOr (table : String → Option String) (ref : Option String)
    (fallback : String) : String :=
  match ref with
  | none => fallback
  | some r =>
      match table r with
      | none => fallback
      | some v => if v = "" then fallback else v

/-- Construction of `matchData` from one raw match (src/index.js:74-83).
Total: resolution never fails the whole operation. -/
def toMatchView (participants stations : String → Option String)
    (m : RawMatch) : MatchView :=
  { id := m.id
    station := lookupOr stations m.stationRef "Tisch ?"
    player1 := lookupOr participants m.player1Ref "?"
    player2 := lookupOr participants m.player2Ref "?"
    underwayAt := m.underwayAt
    startedAt := m.startedAt
    state := m.state
    suggestedPlayOrder := m.suggestedPlayOrder }

/-- Boolean order on extracted table numbers, with `none` (= JS
`Infinity`, no digits in the station name) greatest: the order realised
by the comparator `getTableNumber(a.station) - getTableNumber(b.station)`
(src/index.js:93-95). -/
def stationKeyLe : Option Nat → Option Nat → Bool
  | some x, some y => decide (x ≤ y)
  | some _, none => true
  | none, some _ => false
  | none, none => true

/-- The active-list comparator relation (src/index.js:93-95). -/
def activeR (a b : MatchView) : Prop :=
  stationKeyLe (getTableNumber a.station) (getTableNumber b.station) = true

instance : DecidableRel activeR := fun a b => by
  unfold activeR; infer_instance

instance : IsTotal MatchView activeR := by
  constructor
  intro a b
  unfold activeR stationKeyLe
  cases getTableNumber a.station <;> cases getTableNumber b.station <;> simp <;> omega

instance : IsTrans MatchView activeR := by
  constructor
  intro a b c
  unfold activeR stationKeyLe
  cases getTableNumber a.station <;> cases getTableNumber b.station <;>
    cases getTableNumber c.station <;> simp <;> omega

/-- The pending-list comparator relation
`a.suggestedPlayOrder - b.suggestedPlayOrder` (src/index.js:96-98). -/
def pendingR (a b : MatchView) : Prop :=
  a.suggestedPlayOrder ≤ b.suggestedPlayOrder

instance : DecidableRel pendingR := fun a b => Int.decLe _ _

instance : IsTotal MatchView pendingR :=
  ⟨fun a b => Int.le_total a.suggestedPlayOrder b.suggestedPlayOrder⟩

instance : IsTrans MatchView pendingR :=
  ⟨fun _ _ _ hab hbc => le_trans hab hbc⟩

/-- The whole normalization step of `updateMatches` (src/index.js:56-98):
build the lookups, derive a view per match, classify by state into
`active`/`pending`, and sort both lists. -/
def buildSnapshot (included : List IncludedItem) (stationRecs : List StationRec)
    (matchRecs : List RawMatch) : Snapshot :=
  let participants := buildParticipants included
  let stations := buildStations stationRecs
  let views := matchRecs.map (toMatchView participants stations)
  { active := List.insertionSort activeR (views.filter fun v => decide (v.state = some "open"))
    pending := List.insertionSort pendingR (views.filter fun v => decide (v.state = some "pending")) }

/-! ### Cache Manager -/

/-- Models `tournamentId || process.env.TOURNAMENT_ID` (src/index.js:47): an
absent or empty (falsy) identifier defaults to the configured one. -/
def defaultKey (cfg : Config) : Option String → String
  | none => cfg.TOURNAMENT_ID
  | some s => if s = "" then cfg.TOURNAMENT_ID else s

/-- JS property access coerces the key to a string: an `undefined` index
reads the property named `"undefined"` (src/index.js:111-117 uses the raw
`tId` argument as cache key). -/
def jsKey : Option String → String
  | none => "undefined"
  | some s => s

/-- The function `updateMatches` (src/index.js:46-105): default the id, perform the
upstream fetch at time `fnow` (`none` = any failure, caught at
src/index.js:102-104 leaving the state untouched), and on success store
the new snapshot and timestamp under the defaulted key. -/
def updateMatches (cfg : Config) (fetch : Nat → String → Option FetchPayload)
    (fnow : Nat) (tournamentId : Option String) (st : CacheState) : CacheState :=
  let tId := defaultKey cfg tournamentId
  match fetch fnow tId with
  | none => st
  | some payload =>
      let newData := buildSnapshot payload.included payload.stationRecs payload.matchRecs
      { matchesCache := fun k => if k = tId then some newData else st.matchesCache k
        cacheTimestamps := fun k => if k = tId then some fnow else st.cacheTimestamps k }

/-- The refresh condition of `getMatchesData` (src/index.js:110-114):
`!matchesCache[tId] || !cacheTimestamps[tId] ||
 now - cacheTimestamps[tId] > CACHE_INTERVAL`. -/
def isStale (cfg : Config) (now : Nat) (st : CacheState) (k : String) : Bool :=
  (st.matchesCache k).isNone || (st.cacheTimestamps k).isNone ||
    decide (cfg.CACHE_INTERVAL < now - (st.cacheTimestamps k).getD 0)

/-- The function `getMatchesData` (src/index.js:108-118): refresh when stale, then
return `matchesCache[tId] || \x7bactive: [], pending: []\x7d`. `now` is
`Date.now()` at src/index.js:109 and `fnow` the one at src/index.js:101.
The third component counts `updateMatches` invocations (upstream fetch
operations) performed by this call. -/
def getMatchesData (cfg : Config) (fetch : Nat → String → Option FetchPayload)
    (now fnow : Nat) (tId : Option String) (st : CacheState) :
    Snapshot × CacheState × Nat :=
  let k := jsKey tId
  if isStale cfg now st k then
    let st2 := updateMatches cfg fetch fnow tId st
    ((st2.matchesCache k).getD ⟨[], []⟩, st2, 1)
  else
    ((st.matchesCache k).getD ⟨[], []⟩, st, 0)

/-- One externally triggered operation on the cache state: a display
request (`getMatchesData`, src/index.js:512-518) or a bare refresh
(`updateMatches`). -/
inductive CacheOp where
  | query (now fnow : Nat) (tId : Option String)
  | refresh (fnow : Nat) (tId : Option String)
deriving DecidableEq, Repr

/-- Effect of one operation on the cache state. -/
def runOp (cfg : Config) (fetch : Nat → String → Option FetchPayload)
    (st : CacheState) : CacheOp → CacheState
  | .query now fnow tId => (getMatchesData cfg fetch now fnow tId st).2.1
  | .refresh fnow tId => updateMatches cfg fetch fnow tId st

/-- Effect of a sequence of operations. -/
def runOps (cfg : Config) (fetch : Nat → String → Option FetchPayload)
    (st : CacheState) (ops : List CacheOp) : CacheState :=
  ops.foldl (runOp cfg fetch) st

/-- The snapshot/timestamp agreement invariant of the two cache maps. -/
def cacheInv (st : CacheState) : Prop :=
  ∀ k, (st.matchesCache k).isSome ↔ (st.cacheTimestamps k).isSome

/-! ### Shared concrete fixtures (from the spec's worked example) -/

/-- The two stations of the spec's numeric-vs-lexical sorting example. -/
def exStations : List StationRec := [⟨"s2", some "Table 2"⟩, ⟨"s10", some "Table 10"⟩]

/-- The two open matches of the spec's sorting example. -/
def exMatches : List RawMatch :=
  [⟨"1", some "s2", none, none, some "t1", none, some "open", 0⟩,
   ⟨"2", some "s10", none, none, none, none, some "open", 0⟩]

/-! ### Helper lemmas -/

/-- The scan `firstDigitRun` finds nothing exactly when no character is a digit. -/
theorem firstDigitRun_eq_none (cs : List Char) :
    firstDigitRun cs = none ↔ ∀ c ∈ cs, c.isDigit = false := by
  induction cs with
  | nil => simp [firstDigitRun]
  | cons c cs ih =>
      by_cases h : c.isDigit = true
      · simp [firstDigitRun, h]
      · simp only [Bool.not_eq_true] at h
        simp [firstDigitRun, h, ih]

/-! ### Claims about the Fetcher/Normalizer -/

/-- Claim C3: in every snapshot, `active` is sorted ascending by the number
given by the first digit run of each station name, compared numerically,
with digitless station names after all digit-bearing ones (`stationKeyLe`
orders `none`, i.e. no digits, greatest); `getTableNumber` returns `none`
exactly when the station name contains no digit; and on the spec's example
the order is `Table 2` before `Table 10` (numeric, not lexical). -/
theorem active_sorted_by_table_number :
    (∀ (included : List IncludedItem) (stationRecs : List StationRec)
        (matchRecs : List RawMatch),
      (buildSnapshot included stationRecs matchRecs).active.Pairwise fun a b =>
        stationKeyLe (getTableNumber a.station) (getTableNumber b.station) = true) ∧
    (∀ s : String, getTableNumber s = none ↔ ∀ c ∈ s.data, c.isDigit = false) ∧
    (buildSnapshot [] exStations exMatches).active.map (·.station) =
      ["Table 2", "Table 10"] := by
  refine ⟨fun included stationRecs matchRecs => List.sorted_insertionSort activeR _,
    fun s => ?_, by decide⟩
  simp [getTableNumber, firstDigitRun_eq_none]

/-- Claim C5: in every snapshot, `pending` is sorted ascending by
`suggestedPlayOrder`. -/
theorem pending_sorted_by_suggestedPlayOrder
    (included : List IncludedItem) (stationRecs : List StationRec)
    (matchRecs : List RawMatch) :
    (buildSnapshot included stationRecs matchRecs).pending.Pairwise fun a b =>
      a.suggestedPlayOrder ≤ b.suggestedPlayOrder :=
  List.sorted_insertionSort pendingR _

/-- Claim C4: a derived view is in `active` iff it comes from an input match
and has state `"open"`, in `pending` iff it has state `"pending"`, and a
view with any other state (including a missing one) is in neither list;
classification is total, so no input match causes an error. -/
theorem classified_by_state (included : List IncludedItem)
    (stationRecs : List StationRec) (matchRecs : List RawMatch) (v : MatchView) :
    (v ∈ (buildSnapshot included stationRecs matchRecs).active ↔
      v ∈ matchRecs.map (toMatchView (buildParticipants included) (buildStations stationRecs)) ∧
        v.state = some "open") ∧
    (v ∈ (buildSnapshot included stationRecs matchRecs).pending ↔
      v ∈ matchRecs.map (toMatchView (buildParticipants included) (buildStations stationRecs)) ∧
        v.state = some "pending") ∧
    (v.state ≠ some "open" ∧ v.state ≠ some "pending" →
      v ∉ (buildSnapshot included stationRecs matchRecs).active ∧
      v ∉ (buildSnapshot included stationRecs matchRecs).pending) := by
  have hA : v ∈ (buildSnapshot included stationRecs matchRecs).active ↔
      v ∈ matchRecs.map (toMatchView (buildParticipants included) (buildStations stationRecs)) ∧
        v.state = some "open" := by
    simp [buildSnapshot, List.mem_insertionSort, List.mem_filter]
  have hP : v ∈ (buildSnapshot included stationRecs matchRecs).pending ↔
      v ∈ matchRecs.map (toMatchView (buildParticipants included) (buildStations stationRecs)) ∧
        v.state = some "pending" := by
    simp [buildSnapshot, List.mem_insertionSort, List.mem_filter]
  exact ⟨hA, hP, fun h => ⟨fun hx => h.1 (hA.mp hx).2, fun hx => h.2 (hP.mp hx).2⟩⟩

/-- Concrete instance of claim C4's classification at the example data. -/
theorem classified_by_state_witness :
    (⟨"1", "Table 2", "?", "?", some "t1", none, some "open", 0⟩ : MatchView) ∈
      (buildSnapshot [] exStations exMatches).active :=
  (classified_by_state [] exStations exMatches _).1.mpr ⟨by decide, by decide⟩

/-- Identifiers of the participant-typed entries of an included list. -/
def participantIds (l : List IncludedItem) : List String :=
  (l.filter fun it => decide (it.type = "participant")).map (·.id)

/-- Keys never assigned by the forEach keep their previous value. -/
theorem foldl_participantStep_notMem (l : List IncludedItem) :
    ∀ (acc : String → Option String) (k : String),
      (∀ it ∈ l, it.type = "participant" → it.id ≠ k) →
      l.foldl participantStep acc k = acc k := by
  induction l with
  | nil => intro acc k _; rfl
  | cons x l ih =>
      intro acc k h
      have hx := h x (by simp)
      have hrest : ∀ it ∈ l, it.type = "participant" → it.id ≠ k :=
        fun it hit => h it (by simp [hit])
      rw [List.foldl_cons, ih _ k hrest]
      unfold participantStep
      by_cases ht : x.type = "participant"
      · simp only [ht, if_pos rfl]
        have : k ≠ x.id := fun hk => hx ht (hk ▸ rfl)
        simp [this]
      · simp [ht]

/-- When participant identifiers are unique, the lookup maps each
participant entry's id to its computed label. -/
theorem foldl_participantStep_mem (l : List IncludedItem) :
    ∀ (acc : String → Option String) (it : IncludedItem),
      it ∈ l → it.type = "participant" → (participantIds l).Nodup →
      l.foldl participantStep acc it.id = some (participantLabel it.id it.name) := by
  induction l with
  | nil => intro _ it hit; exact absurd hit (List.not_mem_nil it)
  | cons x l ih =>
      intro acc it hit htype hnd
      rcases List.mem_cons.mp hit with rfl | hmem
      · have hids : participantIds (it :: l) = it.id :: participantIds l := by
          simp [participantIds, List.filter_cons, htype]
        rw [hids] at hnd
        have hnotin : ∀ j ∈ l, j.type = "participant" → j.id ≠ it.id := by
          intro j hj hjt hje
          exact (List.nodup_cons.mp hnd).1 (by
            simp only [participantIds, List.mem_map]
            exact ⟨j, List.mem_filter.mpr ⟨hj, by simp [hjt]⟩, hje⟩)
        rw [List.foldl_cons, foldl_participantStep_notMem l _ it.id hnotin]
        unfold participantStep
        simp [htype]
      · have hnd' : (participantIds l).Nodup := by
          unfold participantIds at hnd ⊢
          by_cases ht : x.type = "participant"
          · rw [List.filter_cons_of_pos (by simp [ht])] at hnd
            exact (List.nodup_cons.mp hnd).2
          · rwa [List.filter_cons_of_neg (by simp [ht])] at hnd
        rw [List.foldl_cons]
        exact ih _ it hmem htype hnd'

/-- Claim C7 (amended): with unique participant identifiers, the lookup
maps every included entity of type `"participant"` to its display name
with the invitation-pending marker stripped (so
`"Jane (invitation pending)"` becomes `"Jane"`), and to the synthesized
label `"Spieler <id>"` when the entity has no name. -/
theorem participant_lookup_spec :
    (∀ (included : List IncludedItem) (it : IncludedItem),
      it ∈ included → it.type = "participant" → (participantIds included).Nodup →
      buildParticipants included it.id = some (participantLabel it.id it.name)) ∧
    participantLabel "7" (some "Jane (invitation pending)") = "Jane" ∧
    (∀ id : String, participantLabel id none = "Spieler " ++ id) :=
  ⟨fun included it hmem htype hnd =>
      foldl_participantStep_mem included _ it hmem htype hnd,
    by decide, fun _ => rfl⟩

/-- Concrete instance of claim C7's lookup correctness. -/
theorem participant_lookup_spec_witness :
    buildParticipants [⟨"participant", "7", some "Jane (invitation pending)"⟩] "7" =
      some "Jane" := by
  have h := participant_lookup_spec.1
    [⟨"participant", "7", some "Jane (invitation pending)"⟩]
    ⟨"participant", "7", some "Jane (invitation pending)"⟩
    (by simp) rfl (by decide)
  rw [h]
  decide

/-- Counterexample to claim C7 as stated: a participant entity with no
name is mapped to the German label `"Spieler 5"`, not to `"Player 5"`. -/
theorem participant_label_counterexample :
    buildParticipants [⟨"participant", "5", none⟩] "5" ≠ some "Player 5" ∧
    buildParticipants [⟨"participant", "5", none⟩] "5" = some "Spieler 5" :=
  ⟨by decide, by decide⟩

/-- Claim C8 (amended): resolving names never fails the whole operation
(`toMatchView` is total); a player slot whose participant reference is
missing or unknown resolves to `"?"`, and a station reference that is
missing or unknown resolves to `"Tisch ?"`. -/
theorem unresolved_refs_fallback (participants stations : String → Option String)
    (m : RawMatch) :
    (m.player1Ref.bind participants = none →
      (toMatchView participants stations m).player1 = "?") ∧
    (m.player2Ref.bind participants = none →
      (toMatchView participants stations m).player2 = "?") ∧
    (m.stationRef.bind stations = none →
      (toMatchView participants stations m).station = "Tisch ?") := by
  refine ⟨fun h => ?_, fun h => ?_, fun h => ?_⟩
  · cases hr : m.player1Ref with
    | none => simp [toMatchView, lookupOr, hr]
    | some r => rw [hr, Option.some_bind] at h; simp [toMatchView, lookupOr, hr, h]
  · cases hr : m.player2Ref with
    | none => simp [toMatchView, lookupOr, hr]
    | some r => rw [hr, Option.some_bind] at h; simp [toMatchView, lookupOr, hr, h]
  · cases hr : m.stationRef with
    | none => simp [toMatchView, lookupOr, hr]
    | some r => rw [hr, Option.some_bind] at h; simp [toMatchView, lookupOr, hr, h]

/-- Concrete instance of claim C8's fallbacks at empty lookups. -/
theorem unresolved_refs_fallback_witness :
    (toMatchView (fun _ => none) (fun _ => none)
      ⟨"9", some "sX", some "pX", none, none, none, some "open", 0⟩).station = "Tisch ?" ∧
    (toMatchView (fun _ => none) (fun _ => none)
      ⟨"9", some "sX", some "pX", none, none, none, some "open", 0⟩).player1 = "?" :=
  ⟨(unresolved_refs_fallback (fun _ => none) (fun _ => none) _).2.2 rfl,
   (unresolved_refs_fallback (fun _ => none) (fun _ => none) _).1 rfl⟩

/-- Counterexample to claim C8 as stated: a missing station reference
resolves to the German `"Tisch ?"`, not to `"Table ?"`. -/
theorem station_fallback_counterexample :
    (toMatchView (fun _ => none) (fun _ => none)
      ⟨"9", none, none, none, none, none, some "open", 0⟩).station ≠ "Table ?" ∧
    (toMatchView (fun _ => none) (fun _ => none)
      ⟨"9", none, none, none, none, none, some "open", 0⟩).station = "Tisch ?" :=
  ⟨by decide, by decide⟩

/-! ### Claims about the Cache Manager -/

/-- Claim C1: a fresh cache entry (age at most `CACHE_INTERVAL`) is served
without any upstream fetch and without touching the state; consequently,
an uncached id queried twice within the interval after a successful first
fetch issues exactly one upstream fetch in total (1 then 0), while a
second query after the interval has elapsed issues a second one (1 then
1). -/
theorem fresh_cache_no_fetch (cfg : Config)
    (fetch : Nat → String → Option FetchPayload) :
    (∀ (st : CacheState) (tId : Option String) (snap : Snapshot) (ts now fnow : Nat),
      st.matchesCache (jsKey tId) = some snap →
      st.cacheTimestamps (jsKey tId) = some ts →
      now - ts ≤ cfg.CACHE_INTERVAL →
      getMatchesData cfg fetch now fnow tId st = (snap, st, 0)) ∧
    (∀ id : String, id ≠ "" →
      ∀ (payload : FetchPayload) (st0 : CacheState) (t1 f1 t2 f2 t3 f3 : Nat),
        st0.matchesCache id = none →
        fetch f1 id = some payload →
        t2 - f1 ≤ cfg.CACHE_INTERVAL →
        cfg.CACHE_INTERVAL < t3 - f1 →
        (getMatchesData cfg fetch t1 f1 (some id) st0).2.2 = 1 ∧
        getMatchesData cfg fetch t2 f2 (some id)
            (getMatchesData cfg fetch t1 f1 (some id) st0).2.1 =
          (buildSnapshot payload.included payload.stationRecs payload.matchRecs,
            (getMatchesData cfg fetch t1 f1 (some id) st0).2.1, 0) ∧
        (getMatchesData cfg fetch t3 f3 (some id)
            (getMatchesData cfg fetch t1 f1 (some id) st0).2.1).2.2 = 1) := by
  constructor
  · intro st tId snap ts now fnow hc ht hfresh
    have hnl : ¬ (cfg.CACHE_INTERVAL < now - ts) := by omega
    have hstale : isStale cfg now st (jsKey tId) = false := by
      simp [isStale, hc, ht, hnl]
    simp [getMatchesData, hstale, hc]
  · intro id hid payload st0 t1 f1 t2 f2 t3 f3 hmiss hsucc hfresh hstale3
    have hkey : jsKey (some id) = id := rfl
    have hdef : defaultKey cfg (some id) = id := by simp [defaultKey, hid]
    have hstale1 : isStale cfg t1 st0 id = true := by simp [isStale, hmiss]
    have h1c : (updateMatches cfg fetch f1 (some id) st0).matchesCache id =
        some (buildSnapshot payload.included payload.stationRecs payload.matchRecs) := by
      simp [updateMatches, hdef, hsucc]
    have h1t : (updateMatches cfg fetch f1 (some id) st0).cacheTimestamps id =
        some f1 := by
      simp [updateMatches, hdef, hsucc]
    have hcall1 : getMatchesData cfg fetch t1 f1 (some id) st0 =
        (buildSnapshot payload.included payload.stationRecs payload.matchRecs,
          updateMatches cfg fetch f1 (some id) st0, 1) := by
      simp [getMatchesData, hkey, hstale1, h1c]
    have hnl2 : ¬ (cfg.CACHE_INTERVAL < t2 - f1) := by omega
    have hstale2 : isStale cfg t2 (updateMatches cfg fetch f1 (some id) st0) id = false := by
      simp [isStale, h1c, h1t, hnl2]
    have hcall2 : getMatchesData cfg fetch t2 f2 (some id)
        (updateMatches cfg fetch f1 (some id) st0) =
        (buildSnapshot payload.included payload.stationRecs payload.matchRecs,
          updateMatches cfg fetch f1 (some id) st0, 0) := by
      simp [getMatchesData, hkey, hstale2, h1c]
    have hstale3' : isStale cfg t3 (updateMatches cfg fetch f1 (some id) st0) id = true := by
      simp [isStale, h1c, h1t]
      omega
    refine ⟨by rw [hcall1], ?_, ?_⟩
    · rw [hcall1]
      exact hcall2
    · rw [hcall1]
      simp [getMatchesData, hkey, hstale3']

/-- Concrete two-query run for claim C1: the first query fetches, the
second within the interval does not. -/
theorem fresh_cache_no_fetch_witness :
    (getMatchesData ⟨"t", 15000⟩ (fun _ _ => some ⟨[], [], []⟩) 0 0 (some "t")
        ⟨fun _ => none, fun _ => none⟩).2.2 = 1 ∧
    (getMatchesData ⟨"t", 15000⟩ (fun _ _ => some ⟨[], [], []⟩) 100 100 (some "t")
        (getMatchesData ⟨"t", 15000⟩ (fun _ _ => some ⟨[], [], []⟩) 0 0 (some "t")
          ⟨fun _ => none, fun _ => none⟩).2.1).2.2 = 0 := by
  have h := (fresh_cache_no_fetch ⟨"t", 15000⟩ (fun _ _ => some ⟨[], [], []⟩)).2
    "t" (by decide) ⟨[], [], []⟩ ⟨fun _ => none, fun _ => none⟩ 0 0 100 100 20000 20000
    rfl rfl (by decide) (by decide)
  exact ⟨h.1, by rw [h.2.1]⟩

/-- Claim C2: with an existing cached snapshot, a query whose upstream
fetch fails returns the previously cached snapshot and leaves the cache
state (entry and timestamp) untouched; `getMatchesData` is total, so no
exception reaches its caller. -/
theorem stale_serves_old_snapshot (cfg : Config)
    (fetch : Nat → String → Option FetchPayload) (now fnow : Nat)
    (tId : Option String) (st : CacheState) (snap : Snapshot)
    (hc : st.matchesCache (jsKey tId) = some snap)
    (hfail : fetch fnow (defaultKey cfg tId) = none) :
    (getMatchesData cfg fetch now fnow tId st).1 = snap ∧
    (getMatchesData cfg fetch now fnow tId st).2.1 = st := by
  simp only [getMatchesData, updateMatches, hfail]
  split <;> simp [hc]

/-- Concrete instance of claim C2: a stale entry survives a failed fetch. -/
theorem stale_serves_old_snapshot_witness :
    (getMatchesData ⟨"t", 15000⟩ (fun _ _ => none) 99999 99999 (some "t")
        ⟨fun k => if k = "t" then some ⟨[], []⟩ else none,
         fun k => if k = "t" then some 5 else none⟩).1 = ⟨[], []⟩ :=
  (stale_serves_old_snapshot ⟨"t", 15000⟩ (fun _ _ => none) 99999 99999 (some "t")
    ⟨fun k => if k = "t" then some ⟨[], []⟩ else none,
     fun k => if k = "t" then some 5 else none⟩ ⟨[], []⟩ (by decide) rfl).1

/-- Claim C6: a query for an uncached id triggers a fetch; when it fails,
the query returns the empty snapshot and the state is unchanged, so the
id stays uncached; totality of `getMatchesData` models that no exception
escapes. -/
theorem uncached_failure_empty (cfg : Config)
    (fetch : Nat → String → Option FetchPayload) (now fnow : Nat)
    (tId : Option String) (st : CacheState)
    (hmiss : st.matchesCache (jsKey tId) = none)
    (hfail : fetch fnow (defaultKey cfg tId) = none) :
    getMatchesData cfg fetch now fnow tId st = (⟨[], []⟩, st, 1) := by
  have hstale : isStale cfg now st (jsKey tId) = true := by
    simp [isStale, hmiss]
  simp only [getMatchesData, updateMatches, hfail, hstale, if_true]
  simp [hmiss]

/-- Concrete instance of claim C6 at an empty cache. -/
theorem uncached_failure_empty_witness :
    getMatchesData ⟨"t", 15000⟩ (fun _ _ => none) 0 0 (some "t")
        ⟨fun _ => none, fun _ => none⟩ =
      (⟨[], []⟩, ⟨fun _ => none, fun _ => none⟩, 1) :=
  uncached_failure_empty ⟨"t", 15000⟩ (fun _ _ => none) 0 0 (some "t")
    ⟨fun _ => none, fun _ => none⟩ rfl rfl

/-- A fetch oracle answering every request with one open match on no
station, producing a non-empty snapshot. -/
def fetchNE : Nat → String → Option FetchPayload :=
  fun _ _ => some ⟨[], [], [⟨"1", none, none, none, none, none, some "open", 0⟩]⟩

/-- Counterexample to claim C9 as stated: with an empty cache and a
succeeding upstream, a query with no identifier does not behave as one
with the configured default identifier `"t1"` — it returns the empty
snapshot instead of the default tournament's snapshot, because the cache
is read under the missing key. -/
theorem no_id_query_counterexample :
    (getMatchesData ⟨"t1", 15000⟩ fetchNE 0 0 none ⟨fun _ => none, fun _ => none⟩).1 ≠
      (getMatchesData ⟨"t1", 15000⟩ fetchNE 0 0 (some "t1")
        ⟨fun _ => none, fun _ => none⟩).1 ∧
    (getMatchesData ⟨"t1", 15000⟩ fetchNE 0 0 none ⟨fun _ => none, fun _ => none⟩).1 =
      ⟨[], []⟩ :=
  ⟨by decide, by decide⟩

/-- Claim C9 (amended): a query with no identifier defaults the *fetch*
(and the cache entry written on success) to the configured default
identifier, because `updateMatches` applies the default; but the cache
entry read, and hence the snapshot returned, correspond to the missing
key (`"undefined"`), so the query returns the empty snapshot rather than
the default identifier's snapshot. -/
theorem no_id_query_defaults_write_only (cfg : Config)
    (fetch : Nat → String → Option FetchPayload) (now fnow : Nat)
    (st : CacheState) (payload : FetchPayload)
    (hmiss : st.matchesCache "undefined" = none)
    (hne : cfg.TOURNAMENT_ID ≠ "undefined")
    (hsucc : fetch fnow cfg.TOURNAMENT_ID = some payload) :
    (getMatchesData cfg fetch now fnow none st).1 = ⟨[], []⟩ ∧
    (getMatchesData cfg fetch now fnow none st).2.2 = 1 ∧
    (getMatchesData cfg fetch now fnow none st).2.1.matchesCache cfg.TOURNAMENT_ID =
      some (buildSnapshot payload.included payload.stationRecs payload.matchRecs) ∧
    (getMatchesData cfg fetch now fnow none st).2.1.matchesCache "undefined" = none := by
  have hkey : jsKey none = "undefined" := rfl
  have hdef : defaultKey cfg none = cfg.TOURNAMENT_ID := rfl
  have hstale : isStale cfg now st "undefined" = true := by simp [isStale, hmiss]
  have hne' : "undefined" ≠ cfg.TOURNAMENT_ID := fun h => hne h.symm
  simp [getMatchesData, jsKey, hstale, updateMatches, defaultKey, hsucc, hmiss, hne']

/-- Concrete instance of claim C9's amended form: the default
identifier's entry is written while the query returns empty. -/
theorem no_id_query_defaults_write_only_witness :
    (getMatchesData ⟨"t1", 15000⟩ fetchNE 0 0 none
        ⟨fun _ => none, fun _ => none⟩).2.1.matchesCache "t1" =
      some (buildSnapshot [] []
        [⟨"1", none, none, none, none, none, some "open", 0⟩]) :=
  (no_id_query_defaults_write_only ⟨"t1", 15000⟩ fetchNE 0 0
    ⟨fun _ => none, fun _ => none⟩ _ rfl (by decide) rfl).2.2.1

/-- A failed `updateMatches` leaves the state untouched. -/
theorem updateMatches_failed (cfg : Config)
    (fetch : Nat → String → Option FetchPayload) (fnow : Nat)
    (tId : Option String) (st : CacheState)
    (hfail : fetch fnow (defaultKey cfg tId) = none) :
    updateMatches cfg fetch fnow tId st = st := by
  simp only [updateMatches, hfail]

/-- The update operation preserves the snapshot/timestamp agreement. -/
theorem cacheInv_updateMatches (cfg : Config)
    (fetch : Nat → String → Option FetchPayload) (fnow : Nat)
    (tId : Option String) (st : CacheState) (h : cacheInv st) :
    cacheInv (updateMatches cfg fetch fnow tId st) := by
  simp only [updateMatches]
  rcases hf : fetch fnow (defaultKey cfg tId) with _ | payload <;> simp only [hf]
  · exact h
  · intro k
    by_cases hk : k = defaultKey cfg tId
    · simp [hk]
    · simp only [hk, if_neg hk]
      exact h k

/-- Every cache operation preserves the agreement invariant. -/
theorem cacheInv_runOp (cfg : Config)
    (fetch : Nat → String → Option FetchPayload) (st : CacheState)
    (op : CacheOp) (h : cacheInv st) : cacheInv (runOp cfg fetch st op) := by
  cases op with
  | query now fnow tId =>
      simp only [runOp, getMatchesData]
      by_cases hs : isStale cfg now st (jsKey tId)
      · simp only [hs, if_true]
        exact cacheInv_updateMatches cfg fetch fnow tId st h
      · simp only [hs, if_false, Bool.false_eq_true]
        exact h
  | refresh fnow tId => exact cacheInv_updateMatches cfg fetch fnow tId st h

/-- No cache operation removes an existing snapshot or timestamp entry. -/
theorem runOp_monotone (cfg : Config)
    (fetch : Nat → String → Option FetchPayload) (st : CacheState)
    (op : CacheOp) (k : String) :
    ((st.matchesCache k).isSome → ((runOp cfg fetch st op).matchesCache k).isSome) ∧
    ((st.cacheTimestamps k).isSome →
      ((runOp cfg fetch st op).cacheTimestamps k).isSome) := by
  have hup : ∀ fnow tId,
      ((st.matchesCache k).isSome →
        ((updateMatches cfg fetch fnow tId st).matchesCache k).isSome) ∧
      ((st.cacheTimestamps k).isSome →
        ((updateMatches cfg fetch fnow tId st).cacheTimestamps k).isSome) := by
    intro fnow tId
    simp only [updateMatches]
    rcases hf : fetch fnow (defaultKey cfg tId) with _ | payload <;> simp only [hf]
    · exact ⟨fun hk => hk, fun hk => hk⟩
    · constructor <;> intro hk <;> by_cases hkk : k = defaultKey cfg tId <;>
        simp [hkk, hk]
  cases op with
  | query now fnow tId =>
      simp only [runOp, getMatchesData]
      by_cases hs : isStale cfg now st (jsKey tId)
      · simp only [hs, if_true]
        exact hup fnow tId
      · simp only [hs, if_false, Bool.false_eq_true]
        exact ⟨fun hk => hk, fun hk => hk⟩
  | refresh fnow tId => exact hup fnow tId

/-- Claim C10: after any sequence of query and refresh operations, the
snapshot map and the timestamp map have entries for exactly the same
keys; a successful update writes both together at the defaulted key, a
failed update writes neither (it is the identity on the state), and no
operation removes an existing entry of either map. -/
theorem cache_maps_agree (cfg : Config)
    (fetch : Nat → String → Option FetchPayload) :
    (∀ (ops : List CacheOp) (st : CacheState),
      cacheInv st →
      cacheInv (runOps cfg fetch st ops) ∧
      (∀ k, (st.matchesCache k).isSome →
        ((runOps cfg fetch st ops).matchesCache k).isSome) ∧
      (∀ k, (st.cacheTimestamps k).isSome →
        ((runOps cfg fetch st ops).cacheTimestamps k).isSome)) ∧
    (∀ (st : CacheState) (fnow : Nat) (tId : Option String),
      fetch fnow (defaultKey cfg tId) = none →
      updateMatches cfg fetch fnow tId st = st) ∧
    (∀ (st : CacheState) (fnow : Nat) (tId : Option String) (payload : FetchPayload),
      fetch fnow (defaultKey cfg tId) = some payload →
      ((updateMatches cfg fetch fnow tId st).matchesCache (defaultKey cfg tId)).isSome ∧
      ((updateMatches cfg fetch fnow tId st).cacheTimestamps (defaultKey cfg tId)).isSome) := by
  refine ⟨?_, ?_, ?_⟩
  · intro ops
    induction ops with
    | nil => intro st h; exact ⟨h, fun _ hk => hk, fun _ hk => hk⟩
    | cons op ops ih =>
        intro st h
        have hstep := cacheInv_runOp cfg fetch st op h
        have hrest := ih (runOp cfg fetch st op) hstep
        refine ⟨hrest.1, fun k hk => hrest.2.1 k ?_, fun k hk => hrest.2.2 k ?_⟩
        · exact (runOp_monotone cfg fetch st op k).1 hk
        · exact (runOp_monotone cfg fetch st op k).2 hk
  · intro st fnow tId hfail
    exact updateMatches_failed cfg fetch fnow tId st hfail
  · intro st fnow tId payload hsucc
    simp [updateMatches, hsucc]

/-- Concrete instance of claim C10's invariant after a query run. -/
theorem cache_maps_agree_witness :
    cacheInv (runOps ⟨"t1", 15000⟩ fetchNE ⟨fun _ => none, fun _ => none⟩
      [CacheOp.query 0 0 (some "t"), CacheOp.refresh 5 none]) :=
  ((cache_maps_agree ⟨"t1", 15000⟩ fetchNE).1
    [CacheOp.query 0 0 (some "t"), CacheOp.refresh 5 none]
    ⟨fun _ => none, fun _ => none⟩ (fun _ => Iff.rfl)).1
